import Mathlib

/-!
Shallow embedding of the daemon supervision & RPC bridge core of the
arcbox desktop client (src/services/daemon_manager.rs,
src/services/daemon.rs, src/components/log_viewer.rs).

Socket / process / RPC I/O is abstracted into environment records whose
fields give the outcome of each external interaction (a ping result, a
spawn result, an RPC result); all client-side control flow, state
transitions, emitted events and message strings are translated from the
Rust source.
-/

namespace Arcbox

/-! ## Daemon process supervisor (daemon_manager.rs) -/

/-- Daemon manager state (daemon_manager.rs, enum DaemonState). -/
inductive DaemonState where
  | Stopped
  | Starting
  | Running
  | Failed (msg : String)
deriving DecidableEq

/-- Events emitted by DaemonManager (daemon_manager.rs, enum DaemonManagerEvent). -/
inductive DaemonManagerEvent where
  | StateChanged (s : DaemonState)
deriving DecidableEq

/-- Manager record (daemon_manager.rs, struct DaemonManager); paths are
strings, the child process handle is an abstract identifier. -/
structure DaemonManager where
  state : DaemonState
  daemon_path : Option String
  socket_path : String
  data_dir : String
  child_handle : Option Nat
deriving DecidableEq

/-- Replace only the state field. -/
def DaemonManager.withState (m : DaemonManager) (s : DaemonState) : DaemonManager :=
  ⟨s, m.daemon_path, m.socket_path, m.data_dir, m.child_handle⟩

/-- Replace only the child handle field. -/
def DaemonManager.withChild (m : DaemonManager) (c : Option Nat) : DaemonManager :=
  ⟨m.state, m.daemon_path, m.socket_path, m.data_dir, c⟩

/-- DaemonManager::set_state: emits StateChanged and notifies only when the
new state differs from the current one. Returns (manager, events, notified). -/
def set_state (m : DaemonManager) (s : DaemonState) :
    DaemonManager × List DaemonManagerEvent × Bool :=
  if m.state ≠ s then
    (m.withState s, [DaemonManagerEvent.StateChanged s], true)
  else
    (m, [], false)

/-- DaemonManager::stop: sets state to Stopped via set_state; the child
handle is not touched. -/
def DaemonManager.stop (m : DaemonManager) :
    DaemonManager × List DaemonManagerEvent × Bool :=
  set_state m DaemonState.Stopped

/-- Filesystem environment for DaemonManager::find_daemon_binary: outcomes
of the bundle-path lookup, the current-exe lookup, file-existence tests and
the `which` subprocess. -/
structure FindEnv where
  bundlePath : Option String
  exeDir : Option String
  fileExists : String → Bool
  whichSuccess : Bool
  whichStdout : String

/-- Path join used in the discovery candidates. -/
def pathJoin (a b : String) : String := a ++ "/" ++ b

/-- Candidate path inside the application bundle
(bundle/Contents/MacOS/arcbox). -/
def bundleCandidate (bp : String) : String :=
  pathJoin (pathJoin (pathJoin bp "Contents") "MacOS") "arcbox"

/-- DaemonManager::find_daemon_binary: (1) app bundle, (2) alongside the
executable, (3) `which` on the system search path. -/
def find_daemon_binary (env : FindEnv) : Option String :=
  let step3 : Option String :=
    if env.whichSuccess then
      let path := env.whichStdout.trim
      if path ≠ "" then some path else none
    else none
  let step2 : Option String :=
    match env.exeDir with
    | some d =>
        let cand := pathJoin d "arcbox"
        if env.fileExists cand then some cand else step3
    | none => step3
  match env.bundlePath with
  | some bp =>
      let cand := bundleCandidate bp
      if env.fileExists cand then some cand else step2
  | none => step2

/-- STARTUP_TIMEOUT in milliseconds (daemon_manager.rs). -/
def STARTUP_TIMEOUT_MS : Nat := 30000

/-- STARTUP_PING_INTERVAL in milliseconds (daemon_manager.rs). -/
def STARTUP_PING_INTERVAL_MS : Nat := 200

/-- Environment for DaemonManager::start_daemon_sync: outcome of the
data-directory creation, the initial already-running ping, the spawn, and
per-iteration outcomes of the readiness loop (ping result, try_wait
result, elapsed milliseconds at the timeout check). A try_wait outcome of
`Except.ok (some st)` means the child exited with status string `st`. -/
structure SyncEnv where
  mkdirOk : Bool
  mkdirErr : String
  initialPing : Bool
  spawnOk : Bool
  spawnErr : String
  childId : Nat
  loopPing : Nat → Bool
  tryWait : Nat → Except String (Option String)
  elapsed : Nat → Nat

/-- Observable side effects of one start_daemon_sync run: number of health
probes issued, whether a child process was spawned, whether the child was
killed. -/
structure SyncStats where
  probes : Nat
  spawned : Bool
  killed : Bool
deriving DecidableEq

/-- Readiness loop of start_daemon_sync, one iteration per 200 ms tick:
ping, then non-blocking exit check, then timeout check, then sleep. Fuel
bounds the recursion; the second Nat of the result is the total number of
loop probes issued (resolution at iteration i means i+1 probes), the Bool
records whether the child was killed. -/
def startLoop (env : SyncEnv) : Nat → Nat → Option (Except String Nat × Nat × Bool)
  | 0, _ => none
  | fuel + 1, i =>
    if env.loopPing i then
      some (Except.ok env.childId, i + 1, false)
    else
      match env.tryWait i with
      | Except.error e =>
          some (Except.error ("Failed to check daemon status: " ++ e), i + 1, false)
      | Except.ok (some status) =>
          some (Except.error ("Daemon exited with: " ++ status), i + 1, false)
      | Except.ok none =>
          if env.elapsed i > STARTUP_TIMEOUT_MS then
            some (Except.error "Daemon startup timeout", i + 1, true)
          else
            startLoop env fuel (i + 1)

/-- DaemonManager::start_daemon_sync: ensure the data directory, probe for
an already-running daemon (sentinel error ALREADY_RUNNING), remove the
stale socket, spawn, then run the readiness loop. The stdout/stderr
forwarding threads are diagnostic only and are not modelled. -/
def start_daemon_sync (env : SyncEnv) (fuel : Nat) :
    Option (Except String Nat × SyncStats) :=
  if env.mkdirOk = false then
    some (Except.error ("Failed to create data dir: " ++ env.mkdirErr), ⟨0, false, false⟩)
  else if env.initialPing then
    some (Except.error "ALREADY_RUNNING", ⟨1, false, false⟩)
  else if env.spawnOk = false then
    some (Except.error ("Failed to spawn daemon: " ++ env.spawnErr), ⟨1, false, false⟩)
  else
    match startLoop env fuel 0 with
    | some (r, probes, killed) => some (r, ⟨1 + probes, true, killed⟩)
    | none => none

/-- Result of a fully resolved DaemonManager::start invocation: final
manager, events emitted over the whole invocation, and the startup
side-effect statistics. -/
structure StartOutcome where
  mgr : DaemonManager
  events : List DaemonManagerEvent
  stats : SyncStats
deriving DecidableEq

/-- DaemonManager::start, composed with the resolution of its background
startup task: guard on Starting/Running, fail fast when no binary was
discovered, otherwise set Starting, run start_daemon_sync, and apply the
result (Ok child stores the handle and sets Running; the ALREADY_RUNNING
sentinel sets Running without touching the handle; any other error sets
Failed). `none` means the readiness loop ran out of fuel. -/
def DaemonManager.start (m : DaemonManager) (env : SyncEnv) (fuel : Nat) :
    Option StartOutcome :=
  if m.state = DaemonState.Starting ∨ m.state = DaemonState.Running then
    some ⟨m, [], ⟨0, false, false⟩⟩
  else
    match m.daemon_path with
    | none =>
        let r := set_state m (DaemonState.Failed "Daemon binary not found")
        some ⟨r.1, r.2.1, ⟨0, false, false⟩⟩
    | some _ =>
        let r1 := set_state m DaemonState.Starting
        match start_daemon_sync env fuel with
        | none => none
        | some (res, stats) =>
            match res with
            | Except.ok child =>
                let r2 := set_state (r1.1.withChild (some child)) DaemonState.Running
                some ⟨r2.1, r1.2.1 ++ r2.2.1, stats⟩
            | Except.error e =>
                if e = "ALREADY_RUNNING" then
                  let r2 := set_state r1.1 DaemonState.Running
                  some ⟨r2.1, r1.2.1 ++ r2.2.1, stats⟩
                else
                  let r2 := set_state r1.1 (DaemonState.Failed e)
                  some ⟨r2.1, r1.2.1 ++ r2.2.1, stats⟩

/-- Fold a sequence of requested states through set_state, collecting the
emitted events. -/
def runSetStates (m : DaemonManager) : List DaemonState →
    DaemonManager × List DaemonManagerEvent
  | [] => (m, [])
  | s :: rest =>
      let r1 := set_state m s
      let r2 := runSetStates r1.1 rest
      (r2.1, r1.2.1 ++ r2.2)

/-- States carried by a list of StateChanged events. -/
def eventStates (evs : List DaemonManagerEvent) : List DaemonState :=
  evs.map fun e => match e with | DaemonManagerEvent.StateChanged s => s

/-- Boolean check that no two adjacent list elements are equal. -/
def adjacentDistinctB : List DaemonState → Bool
  | a :: b :: rest => !(decide (a = b)) && adjacentDistinctB (b :: rest)
  | _ => true

/-! ## RPC connection and operation bridge (daemon.rs) -/

/-- Connection state (daemon.rs, enum ConnectionState). -/
inductive ConnectionState where
  | Disconnected
  | Connecting
  | Connected
  | Error (msg : String)
deriving DecidableEq

/-- Environment for DaemonService::create_channel_with_runtime: outcome of
the plain socket connect probe and of the gRPC dial. -/
structure ConnectEnv where
  socketConnectable : Bool
  dial : Except String Nat

/-- DaemonService::create_channel_with_runtime: fast-fail socket probe,
then the dial; the channel is an abstract identifier. -/
def create_channel_with_runtime (env : ConnectEnv) (socket_path : String) :
    Except String Nat :=
  if env.socketConnectable = false then
    Except.error ("Cannot connect to socket: " ++ socket_path)
  else
    match env.dial with
    | Except.ok ch => Except.ok ch
    | Except.error e => Except.error ("Failed to connect: " ++ e)

/-- Service record (daemon.rs, struct DaemonService); the tokio runtime is
an execution resource with no modelled state. -/
structure DaemonService where
  state : ConnectionState
  channel : Option Nat
  socket_path : String
deriving DecidableEq

/-- Result of a fully resolved DaemonService::connect invocation; `dialed`
records whether any dialing work was scheduled. -/
structure ConnectOutcome where
  svc : DaemonService
  dialed : Bool
deriving DecidableEq

/-- DaemonService::connect, composed with the resolution of its background
task: guard on Connecting/Connected, otherwise dial and store the channel
(Connected) or record the failure (Error, channel untouched). -/
def DaemonService.connect (s : DaemonService) (env : ConnectEnv) : ConnectOutcome :=
  if s.state = ConnectionState.Connecting ∨ s.state = ConnectionState.Connected then
    ⟨s, false⟩
  else
    match create_channel_with_runtime env s.socket_path with
    | Except.ok ch => ⟨⟨ConnectionState.Connected, some ch, s.socket_path⟩, true⟩
    | Except.error e => ⟨⟨ConnectionState.Error e, s.channel, s.socket_path⟩, true⟩

/-- DaemonService::disconnect: drop the channel, set Disconnected. -/
def DaemonService.disconnect (s : DaemonService) : DaemonService :=
  ⟨ConnectionState.Disconnected, none, s.socket_path⟩

/-- Events emitted by DaemonService (daemon.rs, enum DaemonEvent); list
payloads are abstract response identifiers. -/
inductive DaemonEvent where
  | MachinesLoaded (payload : Nat)
  | ContainersLoaded (payload : Nat)
  | ImagesLoaded (payload : Nat)
  | NetworksLoaded (payload : Nat)
  | ContainerCreated (id : String)
  | ContainerStarted (id : String)
  | ContainerStopped (id : String)
  | ContainerRemoved (id : String)
  | NetworkCreated (id : String)
  | NetworkRemoved (id : String)
  | OperationFailed (msg : String)
  | LogsReceived (container_id : String) (entry : String)
deriving DecidableEq

/-- Follow-up operation an operation handler re-issues after success. -/
inductive FollowUp where
  | listContainers (all : Bool)
  | listNetworks
  | startContainer (id : String)
deriving DecidableEq

/-- RPC environment: result of each daemon-side call, as seen by the
client; list payloads are abstract response identifiers. -/
structure RpcEnv where
  listMachines : Bool → Except String Nat
  listContainers : Bool → Except String Nat
  listImages : Except String Nat
  listNetworks : Except String Nat
  startContainer : String → Except String Unit
  stopContainer : String → Nat → Except String Unit
  removeContainer : String → Bool → Except String Unit
  createContainer : String → String → List String → List String → String → Except String String
  createNetwork : String → String → Except String String
  removeNetwork : String → Except String Unit

/-- Result of a fully resolved typed operation: final service, events
emitted, whether an RPC was dispatched, follow-up operations issued. -/
structure OpResult where
  svc : DaemonService
  events : List DaemonEvent
  rpcDispatched : Bool
  followUps : List FollowUp
deriving DecidableEq

/-- DaemonService::list_machines (request always has all = true); a failure
is only logged, no event. -/
def DaemonService.list_machines (s : DaemonService) (env : RpcEnv) : OpResult :=
  match s.channel with
  | none => ⟨s, [], false, []⟩
  | some _ =>
      match env.listMachines true with
      | Except.ok payload => ⟨s, [DaemonEvent.MachinesLoaded payload], true, []⟩
      | Except.error _ => ⟨s, [], true, []⟩

/-- DaemonService::list_containers (request carries all; limit 0 and empty
filters are constants); a failure is only logged, no event. -/
def DaemonService.list_containers (s : DaemonService) (env : RpcEnv) (all : Bool) : OpResult :=
  match s.channel with
  | none => ⟨s, [], false, []⟩
  | some _ =>
      match env.listContainers all with
      | Except.ok payload => ⟨s, [DaemonEvent.ContainersLoaded payload], true, []⟩
      | Except.error _ => ⟨s, [], true, []⟩

/-- DaemonService::list_images; a failure is only logged, no event. -/
def DaemonService.list_images (s : DaemonService) (env : RpcEnv) : OpResult :=
  match s.channel with
  | none => ⟨s, [], false, []⟩
  | some _ =>
      match env.listImages with
      | Except.ok payload => ⟨s, [DaemonEvent.ImagesLoaded payload], true, []⟩
      | Except.error _ => ⟨s, [], true, []⟩

/-- DaemonService::list_networks; a failure is only logged, no event. -/
def DaemonService.list_networks (s : DaemonService) (env : RpcEnv) : OpResult :=
  match s.channel with
  | none => ⟨s, [], false, []⟩
  | some _ =>
      match env.listNetworks with
      | Except.ok payload => ⟨s, [DaemonEvent.NetworksLoaded payload], true, []⟩
      | Except.error _ => ⟨s, [], true, []⟩

/-- DaemonService::start_container: when not connected the guard only logs
a warning and returns; on success emits ContainerStarted then re-issues
list_containers(true); on failure emits OperationFailed. -/
def DaemonService.start_container (s : DaemonService) (env : RpcEnv) (id : String) : OpResult :=
  match s.channel with
  | none => ⟨s, [], false, []⟩
  | some _ =>
      match env.startContainer id with
      | Except.ok _ =>
          ⟨s, [DaemonEvent.ContainerStarted id], true, [FollowUp.listContainers true]⟩
      | Except.error e =>
          ⟨s, [DaemonEvent.OperationFailed ("Failed to start container: " ++ e)], true, []⟩

/-- DaemonService::stop_container (analogous to start_container). -/
def DaemonService.stop_container (s : DaemonService) (env : RpcEnv)
    (id : String) (timeout : Nat) : OpResult :=
  match s.channel with
  | none => ⟨s, [], false, []⟩
  | some _ =>
      match env.stopContainer id timeout with
      | Except.ok _ =>
          ⟨s, [DaemonEvent.ContainerStopped id], true, [FollowUp.listContainers true]⟩
      | Except.error e =>
          ⟨s, [DaemonEvent.OperationFailed ("Failed to stop container: " ++ e)], true, []⟩

/-- DaemonService::remove_container (analogous to start_container;
remove_volumes is the constant false). -/
def DaemonService.remove_container (s : DaemonService) (env : RpcEnv)
    (id : String) (force : Bool) : OpResult :=
  match s.channel with
  | none => ⟨s, [], false, []⟩
  | some _ =>
      match env.removeContainer id force with
      | Except.ok _ =>
          ⟨s, [DaemonEvent.ContainerRemoved id], true, [FollowUp.listContainers true]⟩
      | Except.error e =>
          ⟨s, [DaemonEvent.OperationFailed ("Failed to remove container: " ++ e)], true, []⟩

/-- DaemonService::create_container: when not connected it emits
OperationFailed and returns; on success emits ContainerCreated then either
chains start_container (start = true) or re-issues list_containers(true);
on failure emits OperationFailed. -/
def DaemonService.create_container (s : DaemonService) (env : RpcEnv)
    (image : String) (name : Option String) (cmd : Option (List String))
    (entrypoint : Option (List String)) (working_dir : Option String)
    (start : Bool) : OpResult :=
  match s.channel with
  | none => ⟨s, [DaemonEvent.OperationFailed "Not connected to daemon"], false, []⟩
  | some _ =>
      match env.createContainer image (name.getD "") (cmd.getD [])
          (entrypoint.getD []) (working_dir.getD "") with
      | Except.ok cid =>
          ⟨s, [DaemonEvent.ContainerCreated cid], true,
            if start then [FollowUp.startContainer cid] else [FollowUp.listContainers true]⟩
      | Except.error e =>
          ⟨s, [DaemonEvent.OperationFailed ("Failed to create container: " ++ e)], true, []⟩

/-- DaemonService::create_network: when not connected it emits
OperationFailed; on success emits NetworkCreated with the returned id then
re-issues list_networks; on failure emits OperationFailed. -/
def DaemonService.create_network (s : DaemonService) (env : RpcEnv)
    (name : String) (driver : Option String) : OpResult :=
  match s.channel with
  | none => ⟨s, [DaemonEvent.OperationFailed "Not connected to daemon"], false, []⟩
  | some _ =>
      match env.createNetwork name (driver.getD "") with
      | Except.ok nid =>
          ⟨s, [DaemonEvent.NetworkCreated nid], true, [FollowUp.listNetworks]⟩
      | Except.error e =>
          ⟨s, [DaemonEvent.OperationFailed ("Failed to create network: " ++ e)], true, []⟩

/-- DaemonService::remove_network (analogous to create_network). -/
def DaemonService.remove_network (s : DaemonService) (env : RpcEnv) (id : String) : OpResult :=
  match s.channel with
  | none => ⟨s, [DaemonEvent.OperationFailed "Not connected to daemon"], false, []⟩
  | some _ =>
      match env.removeNetwork id with
      | Except.ok _ =>
          ⟨s, [DaemonEvent.NetworkRemoved id], true, [FollowUp.listNetworks]⟩
      | Except.error e =>
          ⟨s, [DaemonEvent.OperationFailed ("Failed to remove network: " ++ e)], true, []⟩

/-- Server-streaming log request (ContainerLogsRequest fields as built by
DaemonService::subscribe_logs). -/
structure LogsRequest where
  id : String
  follow : Bool
  stdout : Bool
  stderr : Bool
  timestamps : Bool
  sinceTs : Int
  untilTs : Int
  tail : Int
deriving DecidableEq

/-- DaemonService::subscribe_logs, the request-building part: when not
connected the guard only logs and no stream is opened; otherwise one
server-streaming call is opened with stdout = stderr = timestamps = true,
since = until = 0 and tail defaulting to 100. Each opened stream drives
exactly one forwarding loop. -/
def DaemonService.subscribe_logs (s : DaemonService) (container_id : String)
    (follow : Bool) (tail : Option Nat) : Option LogsRequest :=
  match s.channel with
  | none => none
  | some _ =>
      some ⟨container_id, follow, true, true, true, 0, 0,
        (tail.map fun n => (n : Int)).getD 100⟩

/-! ## Log viewer component (log_viewer.rs) -/

/-- A rendered log line (log_viewer.rs, struct LogLine). -/
structure LogLine where
  content : String
  stream : String
  timestamp : Int
deriving DecidableEq

/-- Log viewer component state (log_viewer.rs, struct LogViewer). -/
structure LogViewer where
  container_id : String
  lines : List LogLine
  follow : Bool
  show_timestamps : Bool
  subscribed : Bool
  max_lines : Nat
deriving DecidableEq

/-- LogViewer::subscribe: no-op under the subscribed flag, otherwise set
the flag and issue exactly one subscribe_logs(container_id, true, Some 100)
invocation; the returned list holds the invocations made by this call. -/
def LogViewer.subscribe (v : LogViewer) : LogViewer × List (String × Bool × Option Nat) :=
  if v.subscribed then (v, [])
  else
    (⟨v.container_id, v.lines, v.follow, v.show_timestamps, true, v.max_lines⟩,
     [(v.container_id, true, some 100)])

/-- Iterate LogViewer::subscribe n times, collecting every subscribe_logs
invocation made. -/
def subscribeTimes (v : LogViewer) : Nat → LogViewer × List (String × Bool × Option Nat)
  | 0 => (v, [])
  | n + 1 =>
      let r1 := v.subscribe
      let r2 := subscribeTimes r1.1 n
      (r2.1, r1.2 ++ r2.2)

/-! ## Helper lemmas -/

/-- The manager returned by set_state always carries the requested state. -/
theorem set_state_fst_state (m : DaemonManager) (s : DaemonState) :
    ((set_state m s).1).state = s := by
  unfold set_state
  by_cases h : m.state ≠ s
  · rw [if_pos h]; rfl
  · rw [if_neg h]
    exact not_not.mp h

/-- While every iteration pings negative, sees a still-running child and is
under the timeout, the readiness loop just advances. -/
theorem startLoop_advance (env : SyncEnv) (d : Nat) :
    ∀ (i fuel : Nat),
      (∀ j, i ≤ j → j < i + d →
          env.loopPing j = false ∧ env.tryWait j = Except.ok none ∧
          env.elapsed j ≤ STARTUP_TIMEOUT_MS) →
      startLoop env (fuel + d) i = startLoop env fuel (i + d) := by
  induction d with
  | zero => intro i fuel _; rfl
  | succ d ih =>
      intro i fuel h
      have h0 := h i (le_refl i) (by omega)
      have hstep : startLoop env (fuel + d + 1) i = startLoop env (fuel + d) (i + 1) := by
        simp only [startLoop, h0.1, h0.2.1, Bool.false_eq_true, if_false]
        rw [if_neg (by omega)]
      have hrest := ih (i + 1) fuel (fun j hj1 hj2 => h j (by omega) (by omega))
      calc startLoop env (fuel + (d + 1)) i
        = startLoop env (fuel + d + 1) i := by ring_nf
        _ = startLoop env (fuel + d) (i + 1) := hstep
        _ = startLoop env fuel (i + 1 + d) := hrest
        _ = startLoop env fuel (i + (d + 1)) := by ring_nf

/-- Resolution of DaemonManager::start when the guard passes, a binary was
discovered and the synchronous startup yields the ALREADY_RUNNING
sentinel: the state resolves to Running and nothing else is touched. -/
theorem start_resolution_already (m : DaemonManager) (env : SyncEnv) (fuel : Nat)
    (p : String) (stats : SyncStats)
    (hg1 : m.state ≠ DaemonState.Starting) (hg2 : m.state ≠ DaemonState.Running)
    (hpath : m.daemon_path = some p)
    (hsync : start_daemon_sync env fuel =
      some (Except.error "ALREADY_RUNNING", stats)) :
    DaemonManager.start m env fuel =
      some ⟨m.withState DaemonState.Running,
            [DaemonManagerEvent.StateChanged DaemonState.Starting,
             DaemonManagerEvent.StateChanged DaemonState.Running],
            stats⟩ := by
  have hg : ¬(m.state = DaemonState.Starting ∨ m.state = DaemonState.Running) :=
    fun h => h.elim hg1 hg2
  have h1 : set_state m DaemonState.Starting =
      (m.withState DaemonState.Starting,
       [DaemonManagerEvent.StateChanged DaemonState.Starting], true) := by
    unfold set_state; rw [if_pos hg1]
  have hne2 : (m.withState DaemonState.Starting).state ≠ DaemonState.Running := by
    simp [DaemonManager.withState]
  have h2 : set_state (m.withState DaemonState.Starting) DaemonState.Running =
      (m.withState DaemonState.Running,
       [DaemonManagerEvent.StateChanged DaemonState.Running], true) := by
    unfold set_state; rw [if_pos hne2]; rfl
  unfold DaemonManager.start
  rw [if_neg hg, hpath]
  simp [h1, hsync, h2]

/-- Resolution of DaemonManager::start when the guard passes, a binary was
discovered and the synchronous startup fails with a genuine error: the
state resolves to Failed with that error message. -/
theorem start_resolution_failed (m : DaemonManager) (env : SyncEnv) (fuel : Nat)
    (p e : String) (stats : SyncStats)
    (hg1 : m.state ≠ DaemonState.Starting) (hg2 : m.state ≠ DaemonState.Running)
    (hpath : m.daemon_path = some p)
    (hsync : start_daemon_sync env fuel = some (Except.error e, stats))
    (hne : e ≠ "ALREADY_RUNNING") :
    DaemonManager.start m env fuel =
      some ⟨m.withState (DaemonState.Failed e),
            [DaemonManagerEvent.StateChanged DaemonState.Starting,
             DaemonManagerEvent.StateChanged (DaemonState.Failed e)],
            stats⟩ := by
  have hg : ¬(m.state = DaemonState.Starting ∨ m.state = DaemonState.Running) :=
    fun h => h.elim hg1 hg2
  have h1 : set_state m DaemonState.Starting =
      (m.withState DaemonState.Starting,
       [DaemonManagerEvent.StateChanged DaemonState.Starting], true) := by
    unfold set_state; rw [if_pos hg1]
  have hne2 : (m.withState DaemonState.Starting).state ≠ DaemonState.Failed e := by
    simp [DaemonManager.withState]
  have h2 : set_state (m.withState DaemonState.Starting) (DaemonState.Failed e) =
      (m.withState (DaemonState.Failed e),
       [DaemonManagerEvent.StateChanged (DaemonState.Failed e)], true) := by
    unfold set_state; rw [if_pos hne2]; rfl
  unfold DaemonManager.start
  rw [if_neg hg, hpath]
  simp [h1, hsync, h2, hne]

/-- Removing the head of an adjacent-distinct list keeps it adjacent
distinct. -/
theorem adjacentDistinctB_tail (a : DaemonState) (l : List DaemonState)
    (h : adjacentDistinctB (a :: l) = true) : adjacentDistinctB l = true := by
  cases l with
  | nil => rfl
  | cons b rest =>
      have h' := h
      simp only [adjacentDistinctB, Bool.and_eq_true] at h'
      exact h'.2

/-- Invariant of folding set_state: prepending the starting state to the
emitted state trace gives an adjacent-distinct list, and the final state
is the last emitted state (or the starting state when nothing was
emitted). -/
theorem runSetStates_chain (ss : List DaemonState) :
    ∀ m : DaemonManager,
      adjacentDistinctB (m.state :: eventStates (runSetStates m ss).2) = true ∧
      (runSetStates m ss).1.state = (eventStates (runSetStates m ss).2).getLastD m.state := by
  induction ss with
  | nil => intro m; exact ⟨rfl, rfl⟩
  | cons s rest ih =>
      intro m
      by_cases h : m.state = s
      · have hset : set_state m s = (m, [], false) := by
          unfold set_state; rw [if_neg (fun hne => hne h)]
        simpa [runSetStates, hset, eventStates] using ih m
      · have hset : set_state m s =
            (m.withState s, [DaemonManagerEvent.StateChanged s], true) := by
          unfold set_state; rw [if_pos h]
        have hih := ih (m.withState s)
        constructor
        · simp only [runSetStates, hset, eventStates, List.map_cons, List.cons_append,
            List.nil_append, adjacentDistinctB, Bool.and_eq_true, Bool.not_eq_eq_eq_not,
            Bool.not_true, decide_eq_false_iff_not]
          exact ⟨h, by simpa [eventStates, DaemonManager.withState] using hih.1⟩
        · simp only [runSetStates, hset, eventStates, List.map_cons, List.cons_append,
            List.nil_append, List.getLastD_cons]
          simpa [eventStates, DaemonManager.withState] using hih.2

/-- After any LogViewer::subscribe call the subscribed flag is set. -/
theorem subscribe_sets_flag (v : LogViewer) : (v.subscribe).1.subscribed = true := by
  unfold LogViewer.subscribe
  by_cases h : v.subscribed
  · rw [if_pos h]; exact h
  · rw [if_neg h]

/-- Iterating subscribe on an already-subscribed viewer does nothing. -/
theorem subscribeTimes_subscribed (n : Nat) :
    ∀ v : LogViewer, v.subscribed = true → subscribeTimes v n = (v, []) := by
  induction n with
  | zero => intro v _; rfl
  | succ n ih =>
      intro v h
      have hsub : v.subscribe = (v, []) := by
        unfold LogViewer.subscribe; rw [if_pos h]
      simp [subscribeTimes, hsub, ih v h]

/-! ## Concrete scenario values -/

/-- Freshly constructed manager whose binary discovery succeeded. -/
def mgrFresh : DaemonManager :=
  ⟨DaemonState.Stopped, some "/usr/local/bin/arcbox",
   "/home/user/.arcbox/docker.sock", "/home/user/.arcbox", none⟩

/-- Manager already in the Running state. -/
def mgrRunning : DaemonManager :=
  ⟨DaemonState.Running, some "/usr/local/bin/arcbox",
   "/home/user/.arcbox/docker.sock", "/home/user/.arcbox", some 7⟩

/-- Freshly constructed manager whose binary discovery found nothing. -/
def mgrNoBinary : DaemonManager :=
  ⟨DaemonState.Stopped, none,
   "/home/user/.arcbox/docker.sock", "/home/user/.arcbox", none⟩

/-- Startup environment in which nothing interesting happens (used where
the startup sequence is never reached). -/
def syncEnvNoop : SyncEnv :=
  ⟨true, "", false, true, "", 0, fun _ => false, fun _ => Except.ok none, fun _ => 0⟩

/-- Startup environment: daemon not yet running, spawn succeeds, first
readiness ping answers. -/
def syncEnvSpawnReady : SyncEnv :=
  ⟨true, "", false, true, "", 7, fun _ => true, fun _ => Except.ok none, fun _ => 0⟩

/-- Startup environment: the health endpoint answers before any spawn. -/
def syncEnvAlreadyRunning : SyncEnv :=
  ⟨true, "", true, true, "", 0, fun _ => false, fun _ => Except.ok none, fun _ => 0⟩

/-- Startup environment: the health probe never succeeds, the child never
exits, and each 200 ms polling tick advances the clock by exactly one
interval. -/
def syncEnvNeverReady : SyncEnv :=
  ⟨true, "", false, true, "", 0, fun _ => false, fun _ => Except.ok none,
   fun i => STARTUP_PING_INTERVAL_MS * i⟩

/-- Startup environment: the health probe never succeeds and the child is
observed exited at polling iteration 3. -/
def syncEnvExits : SyncEnv :=
  ⟨true, "", false, true, "", 0, fun _ => false,
   fun i => if i < 3 then Except.ok none else Except.ok (some "exit status: 1"),
   fun _ => 0⟩

/-- Manager after the first successful spawn of syncEnvSpawnReady. -/
def mgrAfterFirstStart : DaemonManager :=
  ⟨DaemonState.Running, some "/usr/local/bin/arcbox",
   "/home/user/.arcbox/docker.sock", "/home/user/.arcbox", some 7⟩

/-- Manager after a subsequent stop(): Stopped, but the child handle of the
earlier spawn is still retained. -/
def mgrAfterStop : DaemonManager :=
  ⟨DaemonState.Stopped, some "/usr/local/bin/arcbox",
   "/home/user/.arcbox/docker.sock", "/home/user/.arcbox", some 7⟩

/-- Discovery environment in which all three search locations miss: the
bundle candidate and the alongside candidate do not exist, and `which`
prints only whitespace. -/
def findEnvMissing : FindEnv :=
  ⟨some "/Applications/ArcBox.app", some "/usr/local/bin", fun _ => false, false, ""⟩

/-- Connection environment whose socket probe fails. -/
def connectEnvRefused : ConnectEnv :=
  ⟨false, Except.error "refused"⟩

/-- Disconnected service (no stored channel). -/
def svcDisconnected : DaemonService :=
  ⟨ConnectionState.Disconnected, none, "/home/user/.arcbox/arcbox.sock"⟩

/-- Connected service holding channel 1. -/
def svcConnected : DaemonService :=
  ⟨ConnectionState.Connected, some 1, "/home/user/.arcbox/arcbox.sock"⟩

/-- Service currently connecting. -/
def svcConnecting : DaemonService :=
  ⟨ConnectionState.Connecting, none, "/home/user/.arcbox/arcbox.sock"⟩

/-- RPC environment in which every call succeeds; created containers get
id cid0, created networks id nid0. -/
def rpcEnvAllOk : RpcEnv :=
  ⟨fun _ => Except.ok 0, fun _ => Except.ok 0, Except.ok 0, Except.ok 0,
   fun _ => Except.ok (), fun _ _ => Except.ok (), fun _ _ => Except.ok (),
   fun _ _ _ _ _ => Except.ok "cid0", fun _ _ => Except.ok "nid0",
   fun _ => Except.ok ()⟩

/-- RPC environment in which every call fails with "connection reset". -/
def rpcEnvAllErr : RpcEnv :=
  ⟨fun _ => Except.error "connection reset", fun _ => Except.error "connection reset",
   Except.error "connection reset", Except.error "connection reset",
   fun _ => Except.error "connection reset", fun _ _ => Except.error "connection reset",
   fun _ _ => Except.error "connection reset",
   fun _ _ _ _ _ => Except.error "connection reset",
   fun _ _ => Except.error "connection reset", fun _ => Except.error "connection reset"⟩

/-- Log viewer that has not yet subscribed. -/
def viewerFresh : LogViewer :=
  ⟨"abc", [], true, true, false, 10000⟩

/-! ## Claims -/

/-- C1: calling DaemonManager::start() while the daemon state is Starting
or Running returns without spawning a process and leaves the state (indeed
the whole manager) unchanged, with no probes and no events; and calling
DaemonService::connect() while the connection state is Connecting or
Connected returns without dialing and leaves the state and stored channel
(indeed the whole service) unchanged. -/
theorem c1_idempotent_guards (m : DaemonManager) (env : SyncEnv) (fuel : Nat)
    (s : DaemonService) (cenv : ConnectEnv)
    (hm : m.state = DaemonState.Starting ∨ m.state = DaemonState.Running)
    (hs : s.state = ConnectionState.Connecting ∨ s.state = ConnectionState.Connected) :
    DaemonManager.start m env fuel = some ⟨m, [], ⟨0, false, false⟩⟩ ∧
    DaemonService.connect s cenv = ⟨s, false⟩ := by
  constructor
  · unfold DaemonManager.start
    rw [if_pos hm]
  · unfold DaemonService.connect
    rw [if_pos hs]

/-- C1 witness: the guards fire on a Running manager and a Connecting
service. -/
theorem c1_idempotent_guards_witness :
    DaemonManager.start mgrRunning syncEnvNoop 5 = some ⟨mgrRunning, [], ⟨0, false, false⟩⟩ ∧
    DaemonService.connect svcConnecting connectEnvRefused = ⟨svcConnecting, false⟩ :=
  c1_idempotent_guards mgrRunning syncEnvNoop 5 svcConnecting connectEnvRefused
    (Or.inr rfl) (Or.inl rfl)

/-- C9: calling LogViewer::subscribe any positive number of times is
equivalent to calling it once — the viewer state and the collected
subscribe_logs invocations coincide — and at most one subscribe_logs
invocation (hence at most one log stream and one forwarding loop) is ever
issued. -/
theorem c9_subscribe_idempotent (v : LogViewer) (n : Nat) :
    subscribeTimes v (n + 1) = subscribeTimes v 1 ∧
    (subscribeTimes v (n + 1)).2.length ≤ 1 := by
  have hflag := subscribe_sets_flag v
  have hrest := subscribeTimes_subscribed n (v.subscribe).1 hflag
  have h1 : subscribeTimes v 1 = ((v.subscribe).1, (v.subscribe).2) := by
    simp [subscribeTimes]
  have hn : subscribeTimes v (n + 1) = ((v.subscribe).1, (v.subscribe).2) := by
    simp [subscribeTimes, hrest]
  refine ⟨by rw [hn, h1], ?_⟩
  rw [hn]
  unfold LogViewer.subscribe
  by_cases h : v.subscribed
  · rw [if_pos h]; simp
  · rw [if_neg h]; simp

/-- C10: DaemonManager::set_state leaves the manager untouched, emits no
event and does not notify when the requested state equals the current one;
it updates the state, emits one StateChanged and notifies when it differs;
consequently, over any sequence of set_state calls, no two consecutive
StateChanged events carry equal states. -/
theorem c10_state_changed_dedup :
    (∀ (m : DaemonManager) (s : DaemonState), m.state = s →
        set_state m s = (m, [], false)) ∧
    (∀ (m : DaemonManager) (s : DaemonState), m.state ≠ s →
        set_state m s =
          (m.withState s, [DaemonManagerEvent.StateChanged s], true)) ∧
    (∀ (m : DaemonManager) (ss : List DaemonState),
        adjacentDistinctB (eventStates (runSetStates m ss).2) = true) := by
  refine ⟨?_, ?_, ?_⟩
  · intro m s h
    unfold set_state
    rw [if_neg (fun hne => hne h)]
  · intro m s h
    unfold set_state
    rw [if_pos h]
  · intro m ss
    exact adjacentDistinctB_tail m.state _ (runSetStates_chain ss m).1

/-- C10 witness: the equal-state call is silent, the changing call emits,
and a duplicate-heavy request sequence yields a deduplicated event trace. -/
theorem c10_state_changed_dedup_witness :
    set_state mgrFresh DaemonState.Stopped = (mgrFresh, [], false) ∧
    set_state mgrFresh DaemonState.Starting =
      (mgrFresh.withState DaemonState.Starting,
       [DaemonManagerEvent.StateChanged DaemonState.Starting], true) ∧
    adjacentDistinctB (eventStates (runSetStates mgrFresh
      [DaemonState.Starting, DaemonState.Starting, DaemonState.Running,
       DaemonState.Running, DaemonState.Stopped]).2) = true :=
  ⟨c10_state_changed_dedup.1 mgrFresh DaemonState.Stopped rfl,
   c10_state_changed_dedup.2.1 mgrFresh DaemonState.Starting (by decide),
   c10_state_changed_dedup.2.2 mgrFresh
     [DaemonState.Starting, DaemonState.Starting, DaemonState.Running,
      DaemonState.Running, DaemonState.Stopped]⟩

/-- C6 counterexample: start_container invoked with no stored channel
dispatches no RPC and leaves the service unchanged, but its emitted event
list is empty — in particular no OperationFailed event is emitted,
contrary to the claim that every mutating operation reports the
not-connected condition. -/
theorem c6_not_connected_counterexample :
    (svcDisconnected.start_container rpcEnvAllOk "abc").events = [] ∧
    (svcDisconnected.stop_container rpcEnvAllOk "abc" 10).events = [] ∧
    (svcDisconnected.remove_container rpcEnvAllOk "abc" false).events = [] ∧
    (svcDisconnected.start_container rpcEnvAllOk "abc").rpcDispatched = false ∧
    (svcDisconnected.start_container rpcEnvAllOk "abc").svc = svcDisconnected :=
  ⟨rfl, rfl, rfl, rfl, rfl⟩

/-- C6 (amended): with no stored channel, every operation dispatches no
RPC, issues no follow-up and leaves the service unchanged; the create
operations (create_container, create_network, remove_network) emit one
OperationFailed "Not connected to daemon" event, while start/stop/remove
container and all read-only list operations silently no-op without
emitting any event. -/
theorem c6_not_connected_guards (s : DaemonService) (env : RpcEnv)
    (id image nname : String) (name driver working_dir : Option String)
    (cmd entrypoint : Option (List String))
    (timeout : Nat) (force startFlag allFlag : Bool)
    (h : s.channel = none) :
    s.start_container env id = ⟨s, [], false, []⟩ ∧
    s.stop_container env id timeout = ⟨s, [], false, []⟩ ∧
    s.remove_container env id force = ⟨s, [], false, []⟩ ∧
    s.create_container env image name cmd entrypoint working_dir startFlag =
      ⟨s, [DaemonEvent.OperationFailed "Not connected to daemon"], false, []⟩ ∧
    s.create_network env nname driver =
      ⟨s, [DaemonEvent.OperationFailed "Not connected to daemon"], false, []⟩ ∧
    s.remove_network env id =
      ⟨s, [DaemonEvent.OperationFailed "Not connected to daemon"], false, []⟩ ∧
    s.list_containers env allFlag = ⟨s, [], false, []⟩ ∧
    s.list_machines env = ⟨s, [], false, []⟩ ∧
    s.list_images env = ⟨s, [], false, []⟩ ∧
    s.list_networks env = ⟨s, [], false, []⟩ ∧
    s.subscribe_logs id true (some 100) = none := by
  refine ⟨?_, ?_, ?_, ?_, ?_, ?_, ?_, ?_, ?_, ?_, ?_⟩ <;>
    simp [DaemonService.start_container, DaemonService.stop_container,
      DaemonService.remove_container, DaemonService.create_container,
      DaemonService.create_network, DaemonService.remove_network,
      DaemonService.list_containers, DaemonService.list_machines,
      DaemonService.list_images, DaemonService.list_networks,
      DaemonService.subscribe_logs, h]

/-- C6 witness: the guards at a concrete disconnected service. -/
theorem c6_not_connected_guards_witness :
    svcDisconnected.start_container rpcEnvAllOk "abc" = ⟨svcDisconnected, [], false, []⟩ ∧
    svcDisconnected.create_container rpcEnvAllOk "alpine" none none none none false =
      ⟨svcDisconnected, [DaemonEvent.OperationFailed "Not connected to daemon"], false, []⟩ :=
  ⟨(c6_not_connected_guards svcDisconnected rpcEnvAllOk "abc" "alpine" "net"
      none none none none none 10 false false true rfl).1,
   (c6_not_connected_guards svcDisconnected rpcEnvAllOk "abc" "alpine" "net"
      none none none none none 10 false false true rfl).2.2.2.1⟩

/-- C7 counterexample: a failing list_containers RPC leaves the service
unchanged but emits no event at all — in particular no OperationFailed
carrying the error message, contrary to the claim that every failing list
operation emits one. -/
theorem c7_error_isolation_counterexample :
    (svcConnected.list_containers rpcEnvAllErr true).events = [] ∧
    (svcConnected.list_machines rpcEnvAllErr).events = [] ∧
    (svcConnected.list_images rpcEnvAllErr).events = [] ∧
    (svcConnected.list_networks rpcEnvAllErr).events = [] ∧
    (svcConnected.list_containers rpcEnvAllErr true).svc = svcConnected :=
  ⟨rfl, rfl, rfl, rfl, rfl⟩

/-- C7 (amended): when the background RPC call fails, a mutating operation
emits exactly one OperationFailed event whose message carries the error,
emits no Loaded/Mutated event, triggers no follow-up refresh and leaves
the service unchanged; a failing list operation also triggers nothing and
leaves the service unchanged, but emits no event at all (the failure is
only logged). -/
theorem c7_error_isolation (s : DaemonService) (env : RpcEnv) (c : Nat)
    (id image nname e : String) (name driver working_dir : Option String)
    (cmd entrypoint : Option (List String))
    (timeout : Nat) (force startFlag allFlag : Bool)
    (hch : s.channel = some c)
    (h1 : env.startContainer id = Except.error e)
    (h2 : env.stopContainer id timeout = Except.error e)
    (h3 : env.removeContainer id force = Except.error e)
    (h4 : env.createContainer image (name.getD "") (cmd.getD [])
        (entrypoint.getD []) (working_dir.getD "") = Except.error e)
    (h5 : env.createNetwork nname (driver.getD "") = Except.error e)
    (h6 : env.removeNetwork id = Except.error e)
    (h7 : env.listContainers allFlag = Except.error e)
    (h8 : env.listMachines true = Except.error e)
    (h9 : env.listImages = Except.error e)
    (h10 : env.listNetworks = Except.error e) :
    s.start_container env id =
      ⟨s, [DaemonEvent.OperationFailed ("Failed to start container: " ++ e)], true, []⟩ ∧
    s.stop_container env id timeout =
      ⟨s, [DaemonEvent.OperationFailed ("Failed to stop container: " ++ e)], true, []⟩ ∧
    s.remove_container env id force =
      ⟨s, [DaemonEvent.OperationFailed ("Failed to remove container: " ++ e)], true, []⟩ ∧
    s.create_container env image name cmd entrypoint working_dir startFlag =
      ⟨s, [DaemonEvent.OperationFailed ("Failed to create container: " ++ e)], true, []⟩ ∧
    s.create_network env nname driver =
      ⟨s, [DaemonEvent.OperationFailed ("Failed to create network: " ++ e)], true, []⟩ ∧
    s.remove_network env id =
      ⟨s, [DaemonEvent.OperationFailed ("Failed to remove network: " ++ e)], true, []⟩ ∧
    s.list_containers env allFlag = ⟨s, [], true, []⟩ ∧
    s.list_machines env = ⟨s, [], true, []⟩ ∧
    s.list_images env = ⟨s, [], true, []⟩ ∧
    s.list_networks env = ⟨s, [], true, []⟩ := by
  refine ⟨?_, ?_, ?_, ?_, ?_, ?_, ?_, ?_, ?_, ?_⟩ <;>
    simp [DaemonService.start_container, DaemonService.stop_container,
      DaemonService.remove_container, DaemonService.create_container,
      DaemonService.create_network, DaemonService.remove_network,
      DaemonService.list_containers, DaemonService.list_machines,
      DaemonService.list_images, DaemonService.list_networks,
      hch, h1, h2, h3, h4, h5, h6, h7, h8, h9, h10]

/-- C7 witness: error isolation at a concrete connected service whose
every RPC fails with "connection reset". -/
theorem c7_error_isolation_witness :
    svcConnected.start_container rpcEnvAllErr "abc" =
      ⟨svcConnected,
       [DaemonEvent.OperationFailed ("Failed to start container: " ++ "connection reset")],
       true, []⟩ ∧
    svcConnected.create_network rpcEnvAllErr "net" none =
      ⟨svcConnected,
       [DaemonEvent.OperationFailed ("Failed to create network: " ++ "connection reset")],
       true, []⟩ :=
  ⟨(c7_error_isolation svcConnected rpcEnvAllErr 1 "abc" "alpine" "net" "connection reset"
      none none none none none 10 false false true rfl rfl rfl rfl rfl rfl rfl rfl rfl rfl
      rfl).1,
   (c7_error_isolation svcConnected rpcEnvAllErr 1 "abc" "alpine" "net" "connection reset"
      none none none none none 10 false false true rfl rfl rfl rfl rfl rfl rfl rfl rfl rfl
      rfl).2.2.2.2.1⟩

/-- C8 counterexample: a successful create_container with start = true
emits its ContainerCreated event but then chains a start_container call
instead of re-issuing a list operation — no list refresh for containers is
issued by this successful mutating invocation, contrary to the claim. -/
theorem c8_refresh_counterexample :
    (svcConnected.create_container rpcEnvAllOk "alpine" none none none none true).events =
      [DaemonEvent.ContainerCreated "cid0"] ∧
    (svcConnected.create_container rpcEnvAllOk "alpine" none none none none true).followUps =
      [FollowUp.startContainer "cid0"] ∧
    ¬ FollowUp.listContainers true ∈
      (svcConnected.create_container rpcEnvAllOk "alpine" none none none none true).followUps :=
  ⟨rfl, rfl, by decide⟩

/-- C8 (amended): every successful mutating operation emits exactly one
corresponding Mutated event; start/stop/remove container, create_container
with start = false, and create/remove network then re-issue exactly one
list operation for their entity kind, while create_container with
start = true instead chains one start_container call on the new id (the
container-list refresh is then owed by that chained operation). -/
theorem c8_mutation_refresh (s : DaemonService) (env : RpcEnv) (c : Nat)
    (id image nname cid nid : String) (name driver working_dir : Option String)
    (cmd entrypoint : Option (List String)) (timeout : Nat) (force : Bool)
    (hch : s.channel = some c)
    (hstart : env.startContainer id = Except.ok ())
    (hstop : env.stopContainer id timeout = Except.ok ())
    (hremove : env.removeContainer id force = Except.ok ())
    (hcreate : env.createContainer image (name.getD "") (cmd.getD [])
        (entrypoint.getD []) (working_dir.getD "") = Except.ok cid)
    (hcnet : env.createNetwork nname (driver.getD "") = Except.ok nid)
    (hrnet : env.removeNetwork id = Except.ok ()) :
    s.start_container env id =
      ⟨s, [DaemonEvent.ContainerStarted id], true, [FollowUp.listContainers true]⟩ ∧
    s.stop_container env id timeout =
      ⟨s, [DaemonEvent.ContainerStopped id], true, [FollowUp.listContainers true]⟩ ∧
    s.remove_container env id force =
      ⟨s, [DaemonEvent.ContainerRemoved id], true, [FollowUp.listContainers true]⟩ ∧
    s.create_container env image name cmd entrypoint working_dir false =
      ⟨s, [DaemonEvent.ContainerCreated cid], true, [FollowUp.listContainers true]⟩ ∧
    s.create_container env image name cmd entrypoint working_dir true =
      ⟨s, [DaemonEvent.ContainerCreated cid], true, [FollowUp.startContainer cid]⟩ ∧
    s.create_network env nname driver =
      ⟨s, [DaemonEvent.NetworkCreated nid], true, [FollowUp.listNetworks]⟩ ∧
    s.remove_network env id =
      ⟨s, [DaemonEvent.NetworkRemoved id], true, [FollowUp.listNetworks]⟩ := by
  refine ⟨?_, ?_, ?_, ?_, ?_, ?_, ?_⟩ <;>
    simp [DaemonService.start_container, DaemonService.stop_container,
      DaemonService.remove_container, DaemonService.create_container,
      DaemonService.create_network, DaemonService.remove_network,
      hch, hstart, hstop, hremove, hcreate, hcnet, hrnet]

/-- C8 witness: mutation-triggers-refresh at a concrete connected service
whose every RPC succeeds. -/
theorem c8_mutation_refresh_witness :
    svcConnected.stop_container rpcEnvAllOk "abc" 10 =
      ⟨svcConnected, [DaemonEvent.ContainerStopped "abc"], true,
       [FollowUp.listContainers true]⟩ ∧
    svcConnected.create_network rpcEnvAllOk "net" none =
      ⟨svcConnected, [DaemonEvent.NetworkCreated "nid0"], true, [FollowUp.listNetworks]⟩ :=
  ⟨(c8_mutation_refresh svcConnected rpcEnvAllOk 1 "abc" "alpine" "net" "cid0" "nid0"
      none none none none none 10 false rfl rfl rfl rfl rfl rfl rfl).2.1,
   (c8_mutation_refresh svcConnected rpcEnvAllOk 1 "abc" "alpine" "net" "cid0" "nid0"
      none none none none none 10 false rfl rfl rfl rfl rfl rfl rfl).2.2.2.2.2.1⟩

/-- C2 counterexample: after a successful spawned start, a stop() and a
second start() during which the health endpoint answers before any spawn,
the second invocation resolves to Running with no spawn and a single
probe — but the retained child handle of the first spawn is still stored,
so child_handle does not stay None. -/
theorem c2_already_running_counterexample :
    (DaemonManager.start mgrFresh syncEnvSpawnReady 1).map StartOutcome.mgr =
      some mgrAfterFirstStart ∧
    (mgrAfterFirstStart.stop).1 = mgrAfterStop ∧
    (DaemonManager.start mgrAfterStop syncEnvAlreadyRunning 1).map StartOutcome.mgr =
      some (mgrAfterStop.withState DaemonState.Running) ∧
    (DaemonManager.start mgrAfterStop syncEnvAlreadyRunning 1).map StartOutcome.stats =
      some ⟨1, false, false⟩ ∧
    (mgrAfterStop.withState DaemonState.Running).state = DaemonState.Running ∧
    (mgrAfterStop.withState DaemonState.Running).child_handle ≠ none :=
  ⟨rfl, rfl, rfl, rfl, rfl, by decide⟩

/-- C2 (amended): whenever start() passes its guard and the health-check
endpoint answers the liveness probe before any spawn is attempted (data
directory creation succeeded, initial ping positive), start() resolves the
daemon state to Running after exactly one probe, spawns no child process
and stores no new process handle — child_handle is left exactly as it was
(in particular it stays None whenever it was None before the call). -/
theorem c2_already_running (m : DaemonManager) (env : SyncEnv) (fuel : Nat) (p : String)
    (hg1 : m.state ≠ DaemonState.Starting) (hg2 : m.state ≠ DaemonState.Running)
    (hpath : m.daemon_path = some p)
    (hmkdir : env.mkdirOk = true) (hping : env.initialPing = true) :
    DaemonManager.start m env fuel =
      some ⟨m.withState DaemonState.Running,
            [DaemonManagerEvent.StateChanged DaemonState.Starting,
             DaemonManagerEvent.StateChanged DaemonState.Running],
            ⟨1, false, false⟩⟩ ∧
    (m.withState DaemonState.Running).state = DaemonState.Running ∧
    (m.withState DaemonState.Running).child_handle = m.child_handle := by
  have hsync : start_daemon_sync env fuel =
      some (Except.error "ALREADY_RUNNING", ⟨1, false, false⟩) := by
    unfold start_daemon_sync
    rw [hmkdir, hping]
    simp
  exact ⟨start_resolution_already m env fuel p ⟨1, false, false⟩ hg1 hg2 hpath hsync,
    rfl, rfl⟩

/-- C2 witness: already-running detection on a fresh manager whose handle
is None, which therefore stays None. -/
theorem c2_already_running_witness :
    DaemonManager.start mgrFresh syncEnvAlreadyRunning 1 =
      some ⟨mgrFresh.withState DaemonState.Running,
            [DaemonManagerEvent.StateChanged DaemonState.Starting,
             DaemonManagerEvent.StateChanged DaemonState.Running],
            ⟨1, false, false⟩⟩ ∧
    (mgrFresh.withState DaemonState.Running).child_handle = mgrFresh.child_handle :=
  ⟨(c2_already_running mgrFresh syncEnvAlreadyRunning 1 "/usr/local/bin/arcbox"
      (by decide) (by decide) rfl rfl rfl).1,
   (c2_already_running mgrFresh syncEnvAlreadyRunning 1 "/usr/local/bin/arcbox"
      (by decide) (by decide) rfl rfl rfl).2.2⟩

/-- C3: when none of the three search locations holds the daemon binary
(the bundle candidate is missing, the candidate alongside the executable
is missing, and the system search path lookup fails or returns only
whitespace), discovery returns none, and a start() whose guard passes
resolves the state to Failed "Daemon binary not found" with zero health
probes and without spawning any process. -/
theorem c3_binary_not_found (m : DaemonManager) (env : SyncEnv) (fenv : FindEnv) (fuel : Nat)
    (hg1 : m.state ≠ DaemonState.Starting) (hg2 : m.state ≠ DaemonState.Running)
    (hbundle : ∀ bp, fenv.bundlePath = some bp →
        fenv.fileExists (bundleCandidate bp) = false)
    (halong : ∀ d, fenv.exeDir = some d → fenv.fileExists (pathJoin d "arcbox") = false)
    (hwhich : fenv.whichSuccess = false ∨ fenv.whichStdout.trim = "")
    (hpath : m.daemon_path = find_daemon_binary fenv) :
    find_daemon_binary fenv = none ∧
    DaemonManager.start m env fuel =
      some ⟨(set_state m (DaemonState.Failed "Daemon binary not found")).1,
            (set_state m (DaemonState.Failed "Daemon binary not found")).2.1,
            ⟨0, false, false⟩⟩ ∧
    ((set_state m (DaemonState.Failed "Daemon binary not found")).1).state =
      DaemonState.Failed "Daemon binary not found" := by
  have hg : ¬(m.state = DaemonState.Starting ∨ m.state = DaemonState.Running) :=
    fun h => h.elim hg1 hg2
  have hfind : find_daemon_binary fenv = none := by
    unfold find_daemon_binary
    cases hbp : fenv.bundlePath with
    | some bp =>
        cases hed : fenv.exeDir with
        | some d =>
            rcases hwhich with h | h <;> simp [hbundle bp hbp, halong d hed, h]
        | none =>
            rcases hwhich with h | h <;> simp [hbundle bp hbp, h]
    | none =>
        cases hed : fenv.exeDir with
        | some d =>
            rcases hwhich with h | h <;> simp [halong d hed, h]
        | none =>
            rcases hwhich with h | h <;> simp [h]
  refine ⟨hfind, ?_, set_state_fst_state m _⟩
  unfold DaemonManager.start
  rw [if_neg hg, hpath, hfind]

/-- C3 witness: discovery misses everywhere and start() fails with zero
probes on a concrete fresh manager. -/
theorem c3_binary_not_found_witness :
    find_daemon_binary findEnvMissing = none ∧
    DaemonManager.start mgrNoBinary syncEnvNoop 3 =
      some ⟨(set_state mgrNoBinary (DaemonState.Failed "Daemon binary not found")).1,
            (set_state mgrNoBinary (DaemonState.Failed "Daemon binary not found")).2.1,
            ⟨0, false, false⟩⟩ :=
  ⟨(c3_binary_not_found mgrNoBinary syncEnvNoop findEnvMissing 3 (by decide) (by decide)
      (fun _ _ => rfl) (fun _ _ => rfl) (Or.inl rfl) rfl).1,
   (c3_binary_not_found mgrNoBinary syncEnvNoop findEnvMissing 3 (by decide) (by decide)
      (fun _ _ => rfl) (fun _ _ => rfl) (Or.inl rfl) rfl).2.1⟩

/-- C4: when the health probe never succeeds (initial ping and every loop
ping negative), the spawned child never exits on its own, and each 200 ms
polling tick advances the clock by exactly one interval, start() resolves
to Failed "Daemon startup timeout" — a message containing "timeout" — at
polling iteration 151, the first whose elapsed time exceeds the 30-second
startup timeout; that elapsed time is within one polling interval of the
timeout, and the child is killed before resolving (killed = true in the
startup statistics). -/
theorem c4_startup_timeout (m : DaemonManager) (env : SyncEnv) (p : String)
    (hg1 : m.state ≠ DaemonState.Starting) (hg2 : m.state ≠ DaemonState.Running)
    (hpath : m.daemon_path = some p)
    (hmkdir : env.mkdirOk = true) (hping0 : env.initialPing = false)
    (hspawn : env.spawnOk = true)
    (hping : ∀ i, env.loopPing i = false)
    (hwait : ∀ i, env.tryWait i = Except.ok none)
    (helapsed : ∀ i, env.elapsed i = STARTUP_PING_INTERVAL_MS * i) :
    DaemonManager.start m env 152 =
      some ⟨m.withState (DaemonState.Failed "Daemon startup timeout"),
            [DaemonManagerEvent.StateChanged DaemonState.Starting,
             DaemonManagerEvent.StateChanged (DaemonState.Failed "Daemon startup timeout")],
            ⟨153, true, true⟩⟩ ∧
    "Daemon startup timeout" = "Daemon startup " ++ "timeout" ∧
    STARTUP_TIMEOUT_MS < env.elapsed 151 ∧
    env.elapsed 151 ≤ STARTUP_TIMEOUT_MS + STARTUP_PING_INTERVAL_MS := by
  have hloop : startLoop env 152 0 =
      some (Except.error "Daemon startup timeout", 152, true) := by
    have hadv := startLoop_advance env 151 0 1 (fun j _ hj => by
      refine ⟨hping j, hwait j, ?_⟩
      rw [helapsed j]
      simp only [STARTUP_TIMEOUT_MS, STARTUP_PING_INTERVAL_MS] at *
      omega)
    have e1 : (1 : Nat) + 151 = 152 := by norm_num
    have e2 : (0 : Nat) + 151 = 151 := by norm_num
    rw [e1, e2] at hadv
    rw [hadv]
    simp only [startLoop, hping 151, hwait 151, Bool.false_eq_true, if_false]
    rw [if_pos (by rw [helapsed 151]; simp [STARTUP_TIMEOUT_MS, STARTUP_PING_INTERVAL_MS])]
  have hsync : start_daemon_sync env 152 =
      some (Except.error "Daemon startup timeout", ⟨153, true, true⟩) := by
    unfold start_daemon_sync
    rw [hmkdir, hping0, hspawn]
    simp only [Bool.true_eq_false, if_false, Bool.false_eq_true, if_false, hloop]
  have h := start_resolution_failed m env 152 p "Daemon startup timeout"
    ⟨153, true, true⟩ hg1 hg2 hpath hsync (by decide)
  refine ⟨h, by decide, ?_, ?_⟩
  · rw [helapsed 151]; simp [STARTUP_TIMEOUT_MS, STARTUP_PING_INTERVAL_MS]
  · rw [helapsed 151]; simp [STARTUP_TIMEOUT_MS, STARTUP_PING_INTERVAL_MS]

/-- C4 witness: timeout enforcement on the concrete never-ready
environment. -/
theorem c4_startup_timeout_witness :
    DaemonManager.start mgrFresh syncEnvNeverReady 152 =
      some ⟨mgrFresh.withState (DaemonState.Failed "Daemon startup timeout"),
            [DaemonManagerEvent.StateChanged DaemonState.Starting,
             DaemonManagerEvent.StateChanged (DaemonState.Failed "Daemon startup timeout")],
            ⟨153, true, true⟩⟩ ∧
    syncEnvNeverReady.elapsed 151 ≤ STARTUP_TIMEOUT_MS + STARTUP_PING_INTERVAL_MS :=
  ⟨(c4_startup_timeout mgrFresh syncEnvNeverReady "/usr/local/bin/arcbox"
      (by decide) (by decide) rfl rfl rfl rfl (fun _ => rfl) (fun _ => rfl)
      (fun _ => rfl)).1,
   (c4_startup_timeout mgrFresh syncEnvNeverReady "/usr/local/bin/arcbox"
      (by decide) (by decide) rfl rfl rfl rfl (fun _ => rfl) (fun _ => rfl)
      (fun _ => rfl)).2.2.2⟩

/-- C5: when the health probe never succeeds up to polling iteration k,
the loop observes at iteration k that the spawned child has exited (and
the timeout has not elapsed before k), start() resolves at that very
iteration — after exactly k+2 probes overall, without killing and without
waiting for the 30-second timeout — to a Failed state whose message is
"Daemon exited with: " followed by the exit status. -/
theorem c5_exit_detected (m : DaemonManager) (env : SyncEnv) (p status : String) (k : Nat)
    (hg1 : m.state ≠ DaemonState.Starting) (hg2 : m.state ≠ DaemonState.Running)
    (hpath : m.daemon_path = some p)
    (hmkdir : env.mkdirOk = true) (hping0 : env.initialPing = false)
    (hspawn : env.spawnOk = true)
    (hping : ∀ i, i ≤ k → env.loopPing i = false)
    (hwait : ∀ i, i < k → env.tryWait i = Except.ok none)
    (hexit : env.tryWait k = Except.ok (some status))
    (helapsed : ∀ i, i < k → env.elapsed i ≤ STARTUP_TIMEOUT_MS) :
    DaemonManager.start m env (k + 1) =
      some ⟨m.withState (DaemonState.Failed ("Daemon exited with: " ++ status)),
            [DaemonManagerEvent.StateChanged DaemonState.Starting,
             DaemonManagerEvent.StateChanged
               (DaemonState.Failed ("Daemon exited with: " ++ status))],
            ⟨k + 2, true, false⟩⟩ := by
  have hloop : startLoop env (k + 1) 0 =
      some (Except.error ("Daemon exited with: " ++ status), k + 1, false) := by
    have hadv := startLoop_advance env k 0 1 (fun j _ hj => by
      have hj' : j < k := by omega
      exact ⟨hping j (Nat.le_of_lt hj'), hwait j hj', helapsed j hj'⟩)
    have e1 : (1 : Nat) + k = k + 1 := Nat.add_comm 1 k
    have e2 : (0 : Nat) + k = k := Nat.zero_add k
    rw [e1, e2] at hadv
    rw [hadv]
    simp only [startLoop, hping k (le_refl k), Bool.false_eq_true, if_false, hexit]
  have hsync : start_daemon_sync env (k + 1) =
      some (Except.error ("Daemon exited with: " ++ status), ⟨k + 2, true, false⟩) := by
    unfold start_daemon_sync
    rw [hmkdir, hping0, hspawn]
    simp only [Bool.true_eq_false, if_false, Bool.false_eq_true, if_false, hloop]
    have : 1 + (k + 1) = k + 2 := by omega
    rw [this]
  have hne : ¬("Daemon exited with: " ++ status = "ALREADY_RUNNING") := by
    intro habs
    have hlen := congrArg String.length habs
    rw [String.length_append] at hlen
    have l1 : ("Daemon exited with: ").length = 20 := by decide
    have l2 : ("ALREADY_RUNNING").length = 15 := by decide
    rw [l1, l2] at hlen
    omega
  exact start_resolution_failed m env (k + 1) p ("Daemon exited with: " ++ status)
    ⟨k + 2, true, false⟩ hg1 hg2 hpath hsync hne

/-- C5 witness: exit detection at iteration 3 of the concrete
child-exits environment. -/
theorem c5_exit_detected_witness :
    DaemonManager.start mgrFresh syncEnvExits 4 =
      some ⟨mgrFresh.withState
              (DaemonState.Failed ("Daemon exited with: " ++ "exit status: 1")),
            [DaemonManagerEvent.StateChanged DaemonState.Starting,
             DaemonManagerEvent.StateChanged
               (DaemonState.Failed ("Daemon exited with: " ++ "exit status: 1"))],
            ⟨5, true, false⟩⟩ :=
  c5_exit_detected mgrFresh syncEnvExits "/usr/local/bin/arcbox" "exit status: 1" 3
    (by decide) (by decide) rfl rfl rfl rfl
    (fun i _ => rfl)
    (fun i hi => by simp only [syncEnvExits]; rw [if_pos hi])
    (by simp [syncEnvExits])
    (fun i _ => by simp [syncEnvExits, STARTUP_TIMEOUT_MS])

end Arcbox
